import Mathlib

set_option linter.unusedVariables false

/-!
Shallow embedding of the Clippy AI GUI layer (src/gui.py).

The GUI's mutable state (agent handle, config path, log sink id, form
fields, status text and dot colour, progress, button states) is the
record `Sys`.  External collaborators that live outside this excerpt
(the `ClippyAgent` constructor and the file system) are an `Env`
parameter.  Observable side effects (dialogs, log records, agent
constructions, log-sink add/remove, scheduler calls, task dispatch)
are collected in an `Event` trace.
-/

/-- Python `str.strip` whitespace set: space, tab, newline, CR, VT, FF. -/
def py_whitespace (c : Char) : Bool :=
  c == ' ' || c == '\t' || c == '\n' || c == '\r' || c == '\x0b' || c == '\x0c'

/-- Python `str.strip()`: drop leading and trailing whitespace. -/
def pyStrip (s : String) : String :=
  String.mk (((s.data.dropWhile py_whitespace).reverse.dropWhile py_whitespace).reverse)

/-- Python `str.lower()` (ASCII case mapping, as used on the status texts). -/
def pyLower (s : String) : String :=
  String.mk (s.data.map Char.toLower)

/-- Substring test on character lists: `pat` occurs contiguously in the list. -/
def containsSub (pat : List Char) : List Char → Bool
  | [] => pat.isEmpty
  | c :: rest => pat.isPrefixOf (c :: rest) || containsSub pat rest

/-- Python `pat in s` on strings: substring containment. -/
def strContains (s pat : String) : Bool :=
  containsSub pat.data s.data

/-- Modelled from the spec: the agent facade's configuration, a key-value
store with `config.get(key, default)` / `config.set(key, value)`; the
`ClippyAgent` class itself (module `main`) is not part of this excerpt.
An agent handle carries the config path it was constructed from and its
current configuration store. -/
structure AgentState where
  configPath : String
  config : List (String × Int)
deriving DecidableEq

/-- Model of config.get(key, default): leftmost binding wins, default if absent. -/
def config_get (cfg : List (String × Int)) (key : String) (dflt : Int) : Int :=
  match cfg.lookup key with
  | some v => v
  | none => dflt

/-- Model of config.set(key, value): bind the key to the value (leftmost binding wins). -/
def config_set (cfg : List (String × Int)) (key : String) (v : Int) : List (String × Int) :=
  (key, v) :: cfg

/-- An asynchronous agent operation handed to `_run_async`. -/
inductive TaskCall where
  | processVideo (source : String) (title : Option String)
  | batchProcess (entries : List String)
deriving DecidableEq

/-- Observable side effects of the GUI layer. -/
inductive Event where
  | warnDialog (title msg : String)
  | errorDialog (title msg : String)
  | logError (msg : String)
  | agentConstructed (path : String)
  | sinkRemoved (id : Nat)
  | sinkAdded (id : Nat)
  | schedulerStart
  | schedulerStop
  | taskDispatched (t : TaskCall)
deriving DecidableEq

/-- The GUI state: agent bookkeeping, the loguru sink registry (the sinks
this GUI registered, with a fresh-id counter), the Tk variables, and the
registered buttons' enabled flags.  `maxClipsField` is the spinbox
contents as seen through `IntVar.get`: `some v` when it parses as the
integer `v`, `none` when reading it raises `TclError`. -/
structure Sys where
  agent : Option AgentState
  agentConfigPath : Option String
  logSinkId : Option Nat
  activeSinks : List Nat
  nextSinkId : Nat
  urlField : String
  titleField : String
  batchFileField : String
  configFileField : String
  statusText : String
  dotColor : String
  progress : Int
  maxClipsField : Option Int
  buttons : List Bool

/-- The external world: `ClippyAgent(path).config` contents per path
(modelled from the spec: the agent facade is constructed from a config
path), and the file system as seen by `open(path).readlines()` — an
error message or the file's lines (without terminators). -/
structure Env where
  loadConfig : String → List (String × Int)
  readBatchFile : String → Except String (List String)

/-- Model of `_update_status_dot`: green when the lowered text contains
"ready", else amber; overridden to red when it contains "error" or "fail". -/
def update_status_dot (text : String) : String :=
  let color := if strContains (pyLower text) "ready" then "#10b981" else "#f59e0b"
  if strContains (pyLower text) "error" || strContains (pyLower text) "fail" then "#ef4444"
  else color

/-- Model of `_set_status`: store the text and recompute the dot colour. -/
def set_status (text : String) (s : Sys) : Sys :=
  { s with statusText := text, dotColor := update_status_dot text }

/-- Model of `_toggle_buttons`: set every registered button to the given state. -/
def toggle_buttons (st : Bool) (s : Sys) : Sys :=
  { s with buttons := s.buttons.map (fun _ => st) }

/-- Path resolution in `_ensure_agent`: the stripped field, or the default
"config.yaml" when the stripped field is empty (falsy). -/
def resolve_config_path (field : String) : String :=
  if pyStrip field = "" then "config.yaml" else pyStrip field

/-- Model of `_ensure_agent`: reuse the agent when one exists for the same resolved
path; otherwise construct a new agent, pull `video.max_highlights` into
the spinbox (reading the spinbox default raises `TclError` when it is
unparseable — the returned flag is `true` and the remaining statements do
not run), then replace the log sink (remove the old one, add a fresh one). -/
def ensure_agent (env : Env) (s : Sys) : Sys × List Event × Bool :=
  let configPath := resolve_config_path s.configFileField
  if s.agent.isSome ∧ s.agentConfigPath = some configPath then
    (s, [], false)
  else
    let ag : AgentState := { configPath := configPath, config := env.loadConfig configPath }
    match s.maxClipsField with
    | none =>
        ({ s with agent := some ag, agentConfigPath := some configPath },
         [Event.agentConstructed configPath], true)
    | some cur =>
        let pulled := config_get ag.config "video.max_highlights" cur
        match s.logSinkId with
        | some oldId =>
            ({ s with agent := some ag, agentConfigPath := some configPath,
                      maxClipsField := some pulled,
                      activeSinks := (s.activeSinks.filter (fun i => i != oldId)) ++ [s.nextSinkId],
                      logSinkId := some s.nextSinkId,
                      nextSinkId := s.nextSinkId + 1 },
             [Event.agentConstructed configPath, Event.sinkRemoved oldId,
              Event.sinkAdded s.nextSinkId],
             false)
        | none =>
            ({ s with agent := some ag, agentConfigPath := some configPath,
                      maxClipsField := some pulled,
                      activeSinks := s.activeSinks ++ [s.nextSinkId],
                      logSinkId := some s.nextSinkId,
                      nextSinkId := s.nextSinkId + 1 },
             [Event.agentConstructed configPath, Event.sinkAdded s.nextSinkId],
             false)

/-- The coercion inside `_apply_clip_preferences`:
`max(1, int(self.max_clips_var.get()))`, with the `except (TypeError,
TclError)` branch yielding `5` when the spinbox does not parse. -/
def clip_coerce : Option Int → Int
  | some v => max 1 v
  | none => 5

/-- Model of `_apply_clip_preferences`: no-op without an agent; otherwise coerce the
spinbox value, write it back into the spinbox and into the agent's
`video.max_highlights` configuration key. -/
def apply_clip_preferences (s : Sys) : Sys :=
  match s.agent with
  | none => s
  | some ag =>
      let max_clips := clip_coerce s.maxClipsField
      { s with maxClipsField := some max_clips,
               agent := some { ag with config := config_set ag.config "video.max_highlights" max_clips } }

/-- The body of the worker thread spawned by `_run_async`: run the
operation (`outcome` is its result: `ok` or a raised exception's message);
on exception show an error dialog and log at error level; finally set the
status to "Ready", re-enable every button and reset the progress to 0. -/
def run_async_task (outcome : Except String Unit) (s : Sys) : Sys × List Event :=
  let evs : List Event :=
    match outcome with
    | Except.ok _ => []
    | Except.error msg =>
        [Event.errorDialog "Error" msg, Event.logError ("GUI task error: " ++ msg)]
  ({ toggle_buttons true (set_status "Ready" s) with progress := 0 }, evs)

/-- Batch parsing in `_on_process_batch`:
`[line.strip() for line in f.readlines() if line.strip()]`. -/
def parse_batch_lines (lines : List String) : List String :=
  (lines.filter (fun l => !(pyStrip l).isEmpty)).map pyStrip

/-- Model of `_on_process_single`: warn and return on a blank source; otherwise
ensure the agent (an escaping `TclError` aborts the handler), set a
processing status, disable buttons, set progress 25, apply clip
preferences, and dispatch `process_video` (blank title passed as absent). -/
def on_process_single (env : Env) (s : Sys) : Sys × List Event :=
  let source := pyStrip s.urlField
  if source = "" then
    (s, [Event.warnDialog "Missing input" "Please enter a URL or choose a video file."])
  else
    match ensure_agent env s with
    | (s1, evs, true) => (s1, evs)
    | (s1, evs, false) =>
        let s2 := { toggle_buttons false (set_status "Processing single video…" s1) with
                      progress := 25 }
        let s3 := apply_clip_preferences s2
        let title := if pyStrip s3.titleField = "" then none else some (pyStrip s3.titleField)
        (s3, evs ++ [Event.taskDispatched (TaskCall.processVideo source title)])

/-- Model of `_on_process_batch`: warn on a blank path; error dialog when the file
cannot be read; warn on an empty parsed batch; otherwise ensure the agent,
set a status with the item count, disable buttons, set progress 35, apply
clip preferences, and dispatch `batch_process`. -/
def on_process_batch (env : Env) (s : Sys) : Sys × List Event :=
  let batch_file := pyStrip s.batchFileField
  if batch_file = "" then
    (s, [Event.warnDialog "Missing batch file" "Please select a batch list file."])
  else
    match env.readBatchFile batch_file with
    | Except.error exc =>
        (s, [Event.errorDialog "Error" ("Unable to read batch file: " ++ exc)])
    | Except.ok lines =>
        let entries := parse_batch_lines lines
        if entries.isEmpty then
          (s, [Event.warnDialog "Empty batch" "The selected batch file has no entries."])
        else
          match ensure_agent env s with
          | (s1, evs, true) => (s1, evs)
          | (s1, evs, false) =>
              let s2 := { toggle_buttons false
                            (set_status ("Processing batch (" ++ toString entries.length ++ " items)…") s1) with
                            progress := 35 }
              let s3 := apply_clip_preferences s2
              (s3, evs ++ [Event.taskDispatched (TaskCall.batchProcess entries)])

/-- Model of `_on_start_scheduler`: ensure the agent, apply clip preferences, start
the scheduler, set the status and progress 100. -/
def on_start_scheduler (env : Env) (s : Sys) : Sys × List Event :=
  match ensure_agent env s with
  | (s1, evs, true) => (s1, evs)
  | (s1, evs, false) =>
      let s2 := apply_clip_preferences s1
      ({ set_status "Scheduler running" s2 with progress := 100 },
       evs ++ [Event.schedulerStart])

/-- Model of `_on_stop_scheduler`: only when an agent exists, stop the scheduler,
set the status and reset progress to 0. -/
def on_stop_scheduler (s : Sys) : Sys × List Event :=
  if s.agent.isSome then
    ({ set_status "Scheduler stopped" s with progress := 0 }, [Event.schedulerStop])
  else
    (s, [])

/-- The state built by `__init__` / `_build_ui`: no agent, no sink, default
config path, status "Ready" (dot recomputed), progress 0, spinbox 5, and
the nine registered buttons enabled. -/
def init_state : Sys :=
  { agent := none
    agentConfigPath := none
    logSinkId := none
    activeSinks := []
    nextSinkId := 0
    urlField := ""
    titleField := ""
    batchFileField := ""
    configFileField := "config.yaml"
    statusText := "Ready"
    dotColor := update_status_dot "Ready"
    progress := 0
    maxClipsField := some 5
    buttons := List.replicate 9 true }

/-- One user-visible step of the controller: a button handler, a finished
worker-thread body, or the user editing a form field. -/
inductive Step (env : Env) : Sys → Sys → Prop where
  | ensure (s : Sys) : Step env s (ensure_agent env s).1
  | single (s : Sys) : Step env s (on_process_single env s).1
  | batch (s : Sys) : Step env s (on_process_batch env s).1
  | start (s : Sys) : Step env s (on_start_scheduler env s).1
  | stop (s : Sys) : Step env s (on_stop_scheduler s).1
  | task (o : Except String Unit) (s : Sys) : Step env s (run_async_task o s).1
  | editUrl (t : String) (s : Sys) : Step env s { s with urlField := t }
  | editTitle (t : String) (s : Sys) : Step env s { s with titleField := t }
  | editBatchFile (t : String) (s : Sys) : Step env s { s with batchFileField := t }
  | editConfigFile (t : String) (s : Sys) : Step env s { s with configFileField := t }
  | editMaxClips (v : Option Int) (s : Sys) : Step env s { s with maxClipsField := v }

/-- States reachable from the freshly built GUI through the controller's
operations. -/
def Reachable (env : Env) (s : Sys) : Prop :=
  Relation.ReflTransGen (Step env) init_state s

/-- Sink bookkeeping invariant: the GUI's registered sinks are exactly the
one recorded in `logSinkId` (none, or that single one). -/
def sink_inv (s : Sys) : Prop :=
  s.activeSinks = (match s.logSinkId with | none => [] | some i => [i])

/-- Recognizer for agent-construction events. -/
def is_constructed_ev : Event → Bool
  | Event.agentConstructed _ => true
  | _ => false

/-- Recognizer for sink-registration events. -/
def is_sink_added_ev : Event → Bool
  | Event.sinkAdded _ => true
  | _ => false

/-- A concrete environment for witnesses: every config is empty, every
file read fails. -/
def env0 : Env :=
  { loadConfig := fun _ => []
    readBatchFile := fun _ => Except.error "unreadable" }

/-- A state with an agent present and an unparseable spinbox. -/
def c1_counter_state : Sys :=
  { init_state with
      agent := some { configPath := "config.yaml", config := [] }
      agentConfigPath := some "config.yaml"
      maxClipsField := none }

theorem clip_coerce_ge_one (o : Option Int) : 1 ≤ clip_coerce o := by
  cases o with
  | none => norm_num [clip_coerce]
  | some v => exact le_max_left 1 v

theorem apply_clip_spec (s : Sys) (h : s.agent.isSome) :
    ∃ v, 1 ≤ v ∧ (apply_clip_preferences s).maxClipsField = some v ∧
      ∃ ag2, (apply_clip_preferences s).agent = some ag2 ∧
        ag2.config.lookup "video.max_highlights" = some v := by
  cases hag : s.agent with
  | none => rw [hag] at h; cases h
  | some ag =>
      refine ⟨clip_coerce s.maxClipsField, clip_coerce_ge_one _, ?_,
        { ag with config := config_set ag.config "video.max_highlights" (clip_coerce s.maxClipsField) },
        ?_, ?_⟩
      · simp [apply_clip_preferences, hag]
      · simp [apply_clip_preferences, hag]
      · simp [config_set, List.lookup]

theorem ensure_agent_no_dispatch (env : Env) (s : Sys) (t : TaskCall) :
    Event.taskDispatched t ∉ (ensure_agent env s).2.1 := by
  by_cases hc : (s.agent.isSome = true ∧ s.agentConfigPath = some (resolve_config_path s.configFileField))
  · simp [ensure_agent, hc]
  · rcases hm : s.maxClipsField with _ | cur
    · simp [ensure_agent, hc, hm]
    · rcases hl : s.logSinkId with _ | oldId <;> simp [ensure_agent, hc, hm, hl]

theorem ensure_agent_isSome (env : Env) (s : Sys)
    (h : (ensure_agent env s).2.2 = false) : (ensure_agent env s).1.agent.isSome := by
  by_cases hc : (s.agent.isSome = true ∧ s.agentConfigPath = some (resolve_config_path s.configFileField))
  · simp [ensure_agent, hc]
  · rcases hm : s.maxClipsField with _ | cur
    · simp [ensure_agent, hc, hm] at h
    · rcases hl : s.logSinkId with _ | oldId <;> simp [ensure_agent, hc, hm, hl]

theorem ensure_agent_reuse (env : Env) (s : Sys)
    (h : s.agent.isSome ∧ s.agentConfigPath = some (resolve_config_path s.configFileField)) :
    ensure_agent env s = (s, [], false) := by
  simp only [ensure_agent]
  rw [if_pos h]

theorem apply_clip_sinks (s : Sys) :
    (apply_clip_preferences s).activeSinks = s.activeSinks ∧
    (apply_clip_preferences s).logSinkId = s.logSinkId := by
  cases hag : s.agent with
  | none => simp [apply_clip_preferences, hag]
  | some ag => simp [apply_clip_preferences, hag]

theorem sink_inv_of_eq {s t : Sys} (h : sink_inv s)
    (ha : t.activeSinks = s.activeSinks) (hl : t.logSinkId = s.logSinkId) : sink_inv t := by
  unfold sink_inv at h ⊢
  rw [ha, hl, h]

theorem ensure_agent_sink_inv (env : Env) (s : Sys) (h : sink_inv s) :
    sink_inv (ensure_agent env s).1 := by
  by_cases hc : (s.agent.isSome = true ∧ s.agentConfigPath = some (resolve_config_path s.configFileField))
  · simp only [ensure_agent]
    rw [if_pos hc]
    exact h
  · unfold sink_inv at h ⊢
    rcases hm : s.maxClipsField with _ | cur
    · simp only [ensure_agent, hm]
      rw [if_neg hc]
      exact h
    · rcases hl : s.logSinkId with _ | oldId
      · rw [hl] at h
        simp [ensure_agent, hc, hm, hl, h]
      · rw [hl] at h
        simp [ensure_agent, hc, hm, hl, h]

theorem step_sink_inv {env : Env} {s t : Sys} (hst : Step env s t) (h : sink_inv s) :
    sink_inv t := by
  cases hst with
  | ensure s => exact ensure_agent_sink_inv env s h
  | single s =>
      unfold on_process_single
      by_cases hsrc : pyStrip s.urlField = ""
      · rw [if_pos hsrc]; exact h
      · rw [if_neg hsrc]
        rcases hEA : ensure_agent env s with ⟨s1, evs, flag⟩
        have h1 : sink_inv s1 := by
          have h2 := ensure_agent_sink_inv env s h
          rw [hEA] at h2
          exact h2
        cases flag
        · exact sink_inv_of_eq h1 ((apply_clip_sinks _).1) ((apply_clip_sinks _).2)
        · exact h1
  | batch s =>
      unfold on_process_batch
      by_cases hbf : pyStrip s.batchFileField = ""
      · rw [if_pos hbf]; exact h
      · rw [if_neg hbf]
        rcases hr : env.readBatchFile (pyStrip s.batchFileField) with m | lines
        · exact h
        · dsimp only
          by_cases he : (parse_batch_lines lines).isEmpty = true
          · rw [if_pos he]
            exact h
          · rw [if_neg he]
            rcases hEA : ensure_agent env s with ⟨s1, evs, flag⟩
            have h1 : sink_inv s1 := by
              have h2 := ensure_agent_sink_inv env s h
              rw [hEA] at h2
              exact h2
            cases flag
            · exact sink_inv_of_eq h1 ((apply_clip_sinks _).1) ((apply_clip_sinks _).2)
            · exact h1
  | start s =>
      unfold on_start_scheduler
      rcases hEA : ensure_agent env s with ⟨s1, evs, flag⟩
      have h1 : sink_inv s1 := by
        have h2 := ensure_agent_sink_inv env s h
        rw [hEA] at h2
        exact h2
      cases flag
      · exact sink_inv_of_eq h1 ((apply_clip_sinks _).1) ((apply_clip_sinks _).2)
      · exact h1
  | stop s =>
      unfold on_stop_scheduler
      by_cases ha : s.agent.isSome = true
      · rw [if_pos ha]; exact h
      · rw [if_neg ha]; exact h
  | task o s => exact h
  | editUrl t s => exact h
  | editTitle t s => exact h
  | editBatchFile t s => exact h
  | editConfigFile t s => exact h
  | editMaxClips v s => exact h

theorem reachable_sink_inv {env : Env} {s : Sys} (h : Reachable env s) : sink_inv s := by
  induction h with
  | refl => rfl
  | tail hr hstep ih => exact step_sink_inv hstep ih

theorem dispatch_written_single (env : Env) (s : Sys) (t : TaskCall)
    (hmem : Event.taskDispatched t ∈ (on_process_single env s).2) :
    ∃ v, 1 ≤ v ∧ (on_process_single env s).1.maxClipsField = some v ∧
      ∃ ag2, (on_process_single env s).1.agent = some ag2 ∧
        ag2.config.lookup "video.max_highlights" = some v := by
  unfold on_process_single at hmem ⊢
  by_cases hsrc : pyStrip s.urlField = ""
  · rw [if_pos hsrc] at hmem
    simp at hmem
  · rw [if_neg hsrc] at hmem ⊢
    rcases hEA : ensure_agent env s with ⟨s1, evs, flag⟩
    rw [hEA] at hmem
    cases flag
    · dsimp only at hmem ⊢
      have hsome : s1.agent.isSome := by
        have h2 := ensure_agent_isSome env s (by rw [hEA])
        rw [hEA] at h2
        exact h2
      exact apply_clip_spec _ hsome
    · dsimp only at hmem
      have hnd := ensure_agent_no_dispatch env s t
      rw [hEA] at hnd
      exact absurd hmem hnd

theorem dispatch_written_batch (env : Env) (s : Sys) (t : TaskCall)
    (hmem : Event.taskDispatched t ∈ (on_process_batch env s).2) :
    ∃ v, 1 ≤ v ∧ (on_process_batch env s).1.maxClipsField = some v ∧
      ∃ ag2, (on_process_batch env s).1.agent = some ag2 ∧
        ag2.config.lookup "video.max_highlights" = some v := by
  unfold on_process_batch at hmem ⊢
  by_cases hbf : pyStrip s.batchFileField = ""
  · rw [if_pos hbf] at hmem
    simp at hmem
  · rw [if_neg hbf] at hmem ⊢
    rcases hr : env.readBatchFile (pyStrip s.batchFileField) with m | lines
    · rw [hr] at hmem
      dsimp only at hmem
      simp at hmem
    · rw [hr] at hmem
      dsimp only at hmem ⊢
      by_cases he : (parse_batch_lines lines).isEmpty = true
      · rw [if_pos he] at hmem
        simp at hmem
      · rw [if_neg he] at hmem ⊢
        rcases hEA : ensure_agent env s with ⟨s1, evs, flag⟩
        rw [hEA] at hmem
        cases flag
        · dsimp only at hmem ⊢
          have hsome : s1.agent.isSome := by
            have h2 := ensure_agent_isSome env s (by rw [hEA])
            rw [hEA] at h2
            exact h2
          exact apply_clip_spec _ hsome
        · dsimp only at hmem
          have hnd := ensure_agent_no_dispatch env s t
          rw [hEA] at hnd
          exact absurd hmem hnd

/-- C1 (counterexample): with an agent present and a spinbox that fails to
parse, applying clip preferences stores 5, not the claimed 1. -/
theorem C1_max_clips_counterexample :
    (apply_clip_preferences c1_counter_state).maxClipsField = some 5 ∧
    (apply_clip_preferences c1_counter_state).maxClipsField ≠ some 1 := by
  constructor
  · decide
  · decide

/-- C1 (amended): with an agent present, applying clip preferences stores
max(1, v) when the spinbox parses as v (hence exactly 1 on non-positive
input) and the fallback 5 on parse failure, writing the stored value back
into both the spinbox and the agent's video.max_highlights key; whenever a
single or batch task is dispatched, a value of at least 1 has been written
into both places by dispatch time. -/
theorem C1_max_clips_amended :
    (∀ (s : Sys) (ag : AgentState), s.agent = some ag →
        (apply_clip_preferences s).maxClipsField = some (clip_coerce s.maxClipsField) ∧
        ∃ ag2, (apply_clip_preferences s).agent = some ag2 ∧
          ag2.config.lookup "video.max_highlights" = some (clip_coerce s.maxClipsField)) ∧
    (∀ (env : Env) (s : Sys) (t : TaskCall),
        Event.taskDispatched t ∈ (on_process_single env s).2 →
        ∃ v, 1 ≤ v ∧ (on_process_single env s).1.maxClipsField = some v ∧
          ∃ ag2, (on_process_single env s).1.agent = some ag2 ∧
            ag2.config.lookup "video.max_highlights" = some v) ∧
    (∀ (env : Env) (s : Sys) (t : TaskCall),
        Event.taskDispatched t ∈ (on_process_batch env s).2 →
        ∃ v, 1 ≤ v ∧ (on_process_batch env s).1.maxClipsField = some v ∧
          ∃ ag2, (on_process_batch env s).1.agent = some ag2 ∧
            ag2.config.lookup "video.max_highlights" = some v) := by
  refine ⟨?_, dispatch_written_single, dispatch_written_batch⟩
  intro s ag hag
  constructor
  · simp [apply_clip_preferences, hag]
  · exact ⟨{ ag with config := config_set ag.config "video.max_highlights" (clip_coerce s.maxClipsField) },
      by simp [apply_clip_preferences, hag],
      by simp [config_set, List.lookup]⟩

theorem C1_max_clips_amended_witness :
    (apply_clip_preferences c1_counter_state).maxClipsField =
      some (clip_coerce c1_counter_state.maxClipsField) :=
  (C1_max_clips_amended.1 c1_counter_state { configPath := "config.yaml", config := [] } rfl).1

/-- C2: whatever the dispatched operation's outcome, the task-runner body
ends with status "Ready", every button re-enabled and progress 0; when the
operation raised with message m it shows an error dialog with m and logs an
error record, and a normal completion produces no dialog or log event. -/
theorem C2_task_recovery (outcome : Except String Unit) (s : Sys) :
    (run_async_task outcome s).1.statusText = "Ready" ∧
    (∀ b ∈ (run_async_task outcome s).1.buttons, b = true) ∧
    (run_async_task outcome s).1.progress = 0 ∧
    (∀ msg, outcome = Except.error msg →
        (run_async_task outcome s).2 =
          [Event.errorDialog "Error" msg, Event.logError ("GUI task error: " ++ msg)]) ∧
    (outcome = Except.ok () → (run_async_task outcome s).2 = []) := by
  refine ⟨rfl, ?_, rfl, ?_, ?_⟩
  · intro b hb
    replace hb : b ∈ s.buttons.map (fun _ => true) := hb
    rw [List.mem_map] at hb
    obtain ⟨a, ha, h2⟩ := hb
    exact h2.symm
  · intro msg hmsg
    subst hmsg
    rfl
  · intro hok
    subst hok
    rfl

theorem C2_task_recovery_witness :
    (run_async_task (Except.error "boom") init_state).1.statusText = "Ready" ∧
    (run_async_task (Except.error "boom") init_state).1.progress = 0 ∧
    (run_async_task (Except.error "boom") init_state).2 =
      [Event.errorDialog "Error" "boom", Event.logError ("GUI task error: " ++ "boom")] :=
  ⟨(C2_task_recovery (Except.error "boom") init_state).1,
   (C2_task_recovery (Except.error "boom") init_state).2.2.1,
   (C2_task_recovery (Except.error "boom") init_state).2.2.2.1 "boom" rfl⟩

/-- C3: the parsed batch equals the trimmed lines with blank lines removed,
order and duplicates preserved; in particular the four example lines parse
to exactly the three non-blank trimmed entries. -/
theorem C3_batch_parse :
    (∀ lines : List String,
        parse_batch_lines lines = (lines.map pyStrip).filter (fun l => !l.isEmpty)) ∧
    parse_batch_lines ["a", "", "  b  ", "c"] = ["a", "b", "c"] := by
  constructor
  · intro lines
    induction lines with
    | nil => rfl
    | cons l rest ih =>
        by_cases h : (pyStrip l).isEmpty
        · simp only [parse_batch_lines, List.filter_cons, List.map_cons] at ih ⊢
          simp [h, ih]
        · simp only [parse_batch_lines, List.filter_cons, List.map_cons] at ih ⊢
          simp [h, ih]
  · decide

/-- C4: a source that is blank after trimming makes single-video submission
show the missing-input warning and leave the whole state unchanged, with no
agent construction and no dispatch. -/
theorem C4_blank_source (env : Env) (s : Sys) (h : pyStrip s.urlField = "") :
    on_process_single env s =
      (s, [Event.warnDialog "Missing input" "Please enter a URL or choose a video file."]) := by
  unfold on_process_single
  rw [if_pos h]

theorem C4_blank_source_witness :
    on_process_single env0 init_state =
      (init_state, [Event.warnDialog "Missing input" "Please enter a URL or choose a video file."]) :=
  C4_blank_source env0 init_state rfl

/-- C5: the status-dot colour is a pure function of the status text with
priority red on "error"/"fail", then green on "ready", else amber, matched
case-insensitively; set_status stores the text and that colour, and the
three example texts map to amber, red and green. -/
theorem C5_status_color :
    (∀ text : String,
        update_status_dot text =
          (if strContains (pyLower text) "error" || strContains (pyLower text) "fail" then "#ef4444"
           else if strContains (pyLower text) "ready" then "#10b981" else "#f59e0b")) ∧
    (∀ (text : String) (s : Sys),
        (set_status text s).statusText = text ∧
        (set_status text s).dotColor = update_status_dot text) ∧
    update_status_dot "Processing…" = "#f59e0b" ∧
    update_status_dot "Error: x" = "#ef4444" ∧
    update_status_dot "Ready" = "#10b981" := by
  refine ⟨fun text => rfl, fun text s => ⟨rfl, rfl⟩, by decide, by decide, by decide⟩

/-- C6: starting without an agent and with a parseable spinbox, a call to
ensure_agent constructs exactly one agent and registers exactly one log
sink, and a second call with the unchanged (hence same resolved) config
path is a pure no-op: identical state, no events, no exception. -/
theorem C6_ensure_agent_idempotent (env : Env) (s : Sys) (v : Int)
    (h1 : s.agent = none) (h2 : s.maxClipsField = some v) :
    ((ensure_agent env s).2.1.countP is_constructed_ev) = 1 ∧
    ((ensure_agent env s).2.1.countP is_sink_added_ev) = 1 ∧
    ensure_agent env (ensure_agent env s).1 = ((ensure_agent env s).1, [], false) := by
  have hc : ¬(s.agent.isSome = true ∧
      s.agentConfigPath = some (resolve_config_path s.configFileField)) := by
    rw [h1]
    simp
  refine ⟨?_, ?_, ?_⟩
  · rcases hl : s.logSinkId with _ | oldId <;>
      simp [ensure_agent, hc, h2, hl, is_constructed_ev, is_sink_added_ev, List.countP_cons]
  · rcases hl : s.logSinkId with _ | oldId <;>
      simp [ensure_agent, hc, h2, hl, is_constructed_ev, is_sink_added_ev, List.countP_cons]
  · apply ensure_agent_reuse
    constructor
    · exact ensure_agent_isSome env s
        (by rcases hl : s.logSinkId with _ | oldId <;> simp [ensure_agent, hc, h2, hl])
    · rcases hl : s.logSinkId with _ | oldId <;> simp [ensure_agent, hc, h2, hl]

theorem C6_ensure_agent_idempotent_witness :
    ((ensure_agent env0 init_state).2.1.countP is_constructed_ev) = 1 ∧
    ensure_agent env0 (ensure_agent env0 init_state).1 =
      ((ensure_agent env0 init_state).1, [], false) :=
  ⟨(C6_ensure_agent_idempotent env0 init_state 5 rfl rfl).1,
   (C6_ensure_agent_idempotent env0 init_state 5 rfl rfl).2.2⟩

/-- C7: in every state reachable through the controller's operations at
most one GUI log subscription is active; and when ensure_agent recreates
the agent while a sink is registered, the event sequence removes the old
sink before adding the new one. -/
theorem C7_single_subscription (env : Env) :
    (∀ s : Sys, Reachable env s → s.activeSinks.length ≤ 1) ∧
    (∀ (s : Sys) (oldId : Nat) (v : Int),
        s.logSinkId = some oldId → s.maxClipsField = some v →
        ¬(s.agent.isSome = true ∧
            s.agentConfigPath = some (resolve_config_path s.configFileField)) →
        (ensure_agent env s).2.1 =
          [Event.agentConstructed (resolve_config_path s.configFileField),
           Event.sinkRemoved oldId, Event.sinkAdded s.nextSinkId]) := by
  constructor
  · intro s hs
    have h := reachable_sink_inv hs
    unfold sink_inv at h
    rw [h]
    cases s.logSinkId <;> simp
  · intro s oldId v h1 h2 hcond
    simp [ensure_agent, hcond, h1, h2]

theorem C7_single_subscription_witness :
    init_state.activeSinks.length ≤ 1 :=
  (C7_single_subscription env0).1 init_state Relation.ReflTransGen.refl

/-- C8: batch submission fails in exactly the three ways, each leaving the
state unchanged with only the corresponding dialog event: a warning on a
blank path, an error dialog carrying the read failure's message, and the
distinct empty-batch warning when no non-blank line remains. -/
theorem C8_batch_failures (env : Env) (s : Sys) :
    (pyStrip s.batchFileField = "" →
        on_process_batch env s =
          (s, [Event.warnDialog "Missing batch file" "Please select a batch list file."])) ∧
    (∀ m, env.readBatchFile (pyStrip s.batchFileField) = Except.error m →
        pyStrip s.batchFileField ≠ "" →
        on_process_batch env s =
          (s, [Event.errorDialog "Error" ("Unable to read batch file: " ++ m)])) ∧
    (∀ lines, env.readBatchFile (pyStrip s.batchFileField) = Except.ok lines →
        pyStrip s.batchFileField ≠ "" → parse_batch_lines lines = [] →
        on_process_batch env s =
          (s, [Event.warnDialog "Empty batch" "The selected batch file has no entries."])) := by
  refine ⟨?_, ?_, ?_⟩
  · intro h
    unfold on_process_batch
    rw [if_pos h]
  · intro m hr h
    unfold on_process_batch
    rw [if_neg h, hr]
  · intro lines hr h hp
    unfold on_process_batch
    rw [if_neg h, hr]
    dsimp only
    rw [hp]
    rfl

theorem C8_batch_failures_witness :
    on_process_batch env0 init_state =
      (init_state, [Event.warnDialog "Missing batch file" "Please select a batch list file."]) ∧
    on_process_batch env0 { init_state with batchFileField := "list.txt" } =
      ({ init_state with batchFileField := "list.txt" },
       [Event.errorDialog "Error" ("Unable to read batch file: " ++ "unreadable")]) :=
  ⟨(C8_batch_failures env0 init_state).1 rfl,
   (C8_batch_failures env0 { init_state with batchFileField := "list.txt" }).2.1
     "unreadable" rfl (by decide)⟩

/-- C9: with no agent ever created, stopping the scheduler is a complete
no-op (state unchanged, no scheduler call, no dialog); with an agent it
emits the scheduler stop, sets the stopped status and resets progress. -/
theorem C9_stop_noop (s : Sys) :
    (s.agent = none → on_stop_scheduler s = (s, [])) ∧
    (s.agent.isSome →
        (on_stop_scheduler s).1.statusText = "Scheduler stopped" ∧
        (on_stop_scheduler s).1.progress = 0 ∧
        (on_stop_scheduler s).2 = [Event.schedulerStop]) := by
  constructor
  · intro h
    unfold on_stop_scheduler
    rw [if_neg]
    rw [h]
    simp
  · intro h
    unfold on_stop_scheduler
    rw [if_pos h]
    exact ⟨rfl, rfl, rfl⟩

theorem C9_stop_noop_witness :
    on_stop_scheduler init_state = (init_state, []) :=
  (C9_stop_noop init_state).1 rfl

/-- C10: a config-file field that is blank after trimming resolves to the
literal default "config.yaml"; ensure_agent then keys the (new or reused)
agent by that default, and any constructed agent is constructed from it. -/
theorem C10_default_config_path (env : Env) (s : Sys)
    (h : pyStrip s.configFileField = "") :
    resolve_config_path s.configFileField = "config.yaml" ∧
    (ensure_agent env s).1.agentConfigPath = some "config.yaml" ∧
    (∀ p, Event.agentConstructed p ∈ (ensure_agent env s).2.1 → p = "config.yaml") := by
  have hres : resolve_config_path s.configFileField = "config.yaml" := by
    unfold resolve_config_path
    rw [if_pos h]
  refine ⟨hres, ?_, ?_⟩
  · by_cases hc : (s.agent.isSome = true ∧ s.agentConfigPath = some "config.yaml")
    · simp [ensure_agent, hres, hc]
    · rcases hm : s.maxClipsField with _ | cur
      · simp [ensure_agent, hres, hc, hm]
      · rcases hl : s.logSinkId with _ | oldId <;> simp [ensure_agent, hres, hc, hm, hl]
  · intro p hp
    by_cases hc : (s.agent.isSome = true ∧ s.agentConfigPath = some "config.yaml")
    · simp [ensure_agent, hres, hc] at hp
    · rcases hm : s.maxClipsField with _ | cur
      · simp [ensure_agent, hres, hc, hm] at hp
        exact hp
      · rcases hl : s.logSinkId with _ | oldId <;>
          simp [ensure_agent, hres, hc, hm, hl] at hp <;> exact hp

theorem C10_default_config_path_witness :
    resolve_config_path ({ init_state with configFileField := "" } : Sys).configFileField =
      "config.yaml" :=
  (C10_default_config_path env0 { init_state with configFileField := "" } rfl).1
